import Mathlib

/-!
Shallow embedding of the fluentbit logs-collector daemonset orchestration
(container-engine-lib/.../fluentbit/fluentbit_logs_collector_daemonset.go).

The Kubernetes backend (kubernetes_manager) is modelled as an environment of
call results; each orchestration function is a pure Lean function from such an
environment to its Go return value together with the list of backend calls it
performed, in order.
-/

/-- Errors as produced by the stacktrace library: a fresh error with a message
(stacktrace.NewError) or an error wrapping a cause with a context message
(stacktrace.Propagate with a non-nil cause). -/
inductive Err where
  | new : String → Err
  | wrap : String → Err → Err
deriving DecidableEq

/-- Models kurtosis-tech stacktrace.Propagate (a fork of palantir/stacktrace):
wraps a non-nil cause with a context message, and returns nil when the cause
is nil. -/
def stacktracePropagate (cause : Option Err) (msg : String) : Option Err :=
  match cause with
  | none => none
  | some e => some (Err.wrap msg e)

/-- Status of one container of a pod (apiv1.ContainerStatus); only the Ready
field is consumed by this file. -/
structure ContainerStatus where
  ready : Bool
deriving DecidableEq

/-- A pod as consumed by this file: its name, the node hosting it
(pod.Spec.NodeName) and its container statuses (pod.Status.ContainerStatuses). -/
structure Pod where
  name : String
  nodeName : String
  containerStatuses : List ContainerStatus
deriving DecidableEq

/-- Result of one GetPodsManagedByDaemonSet backend call. -/
inductive PollResult where
  | ok : List Pod → PollResult
  | err : Err → PollResult
deriving DecidableEq

/-- retryInterval = 1 * time.Second; modelled as one discrete time unit. -/
def retryIntervalUnits : Nat := 1

/-- maxRetries = 30. -/
def maxRetries : Nat := 30

/-- The overall context deadline: time.Duration(maxRetries) * retryInterval. -/
def deadlineUnits : Nat := maxRetries * retryIntervalUnits

/-- Environment of the readiness wait loop: the result the backend returns to
the fetch performed on tick n (ticks are 1-indexed; with a 1-unit interval the
n-th tick fires at time n), and which branch the Go select statement picks on
the final tick, when the ticker and the context deadline are ready
simultaneously (raceTimeout = true picks the deadline branch). -/
structure WaitEnv where
  fetch : Nat → PollResult
  raceTimeout : Bool

/-- Outcome of waitForAtLeastOneActivePodManagedByDaemonSet: nil error,
the deadline-timeout error, the max-attempts error, or the backend fetch
error propagated with the daemon set name. -/
inductive WaitOutcome where
  | success
  | timeout : String → WaitOutcome
  | maxRetriesExceeded : String → WaitOutcome
  | fetchError : String → Err → WaitOutcome
deriving DecidableEq

/-- The readiness check exactly as the source performs it:
len(pods) > 0 && len(pods[0].Status.ContainerStatuses) > 0 &&
pods[0].Status.ContainerStatuses[0].Ready. -/
def firstPodFirstContainerReady (pods : List Pod) : Bool :=
  match pods with
  | [] => false
  | p :: _ =>
    match p.containerStatuses with
    | [] => false
    | c :: _ => c.ready

/-- The readiness predicate as the specification words it: at least one pod in
the list has at least one container status reporting ready. Stated only to be
compared with the check the source performs. -/
def specAnyPodAnyContainerReady (pods : List Pod) : Bool :=
  pods.any fun p => p.containerStatuses.any ContainerStatus.ready

/-- The polling loop of waitForAtLeastOneActivePodManagedByDaemonSet.
fuel counts the loop iterations left (maxRetries - attempt); attemptNum is the
loop counter. Each iteration resolves the select: the next tick fires at time
attemptNum + 1; the deadline fires at deadlineUnits, so the deadline branch can
be picked only when the final tick and the deadline are simultaneously ready,
which the raceTimeout flag decides. The second component of the result is the
elapsed time, in time units, at which the function returned. -/
def waitLoopAux (dsName : String) (env : WaitEnv) : Nat → Nat → WaitOutcome × Nat
  | 0, _ => (WaitOutcome.maxRetriesExceeded dsName, deadlineUnits)
  | fuel + 1, attemptNum =>
    if deadlineUnits ≤ attemptNum + 1 ∧ env.raceTimeout = true then
      (WaitOutcome.timeout dsName, deadlineUnits)
    else
      match env.fetch (attemptNum + 1) with
      | PollResult.err e => (WaitOutcome.fetchError dsName e, attemptNum + 1)
      | PollResult.ok pods =>
        if firstPodFirstContainerReady pods then (WaitOutcome.success, attemptNum + 1)
        else waitLoopAux dsName env fuel (attemptNum + 1)

/-- waitForAtLeastOneActivePodManagedByDaemonSet: run the polling loop from
attempt 0 with maxRetries iterations available. -/
def waitForAtLeastOneActivePodManagedByDaemonSet (dsName : String) (env : WaitEnv) :
    WaitOutcome × Nat :=
  waitLoopAux dsName env maxRetries 0

/-- The Go error value corresponding to a wait outcome (nil on success). -/
def waitErr : WaitOutcome → Option Err
  | WaitOutcome.success => none
  | WaitOutcome.timeout d =>
    some (Err.new ("Timeout waiting for a pod managed by logs collector daemon set " ++ d))
  | WaitOutcome.maxRetriesExceeded d =>
    some (Err.new ("Exceeded max retries waiting for a pod managed by daemon set " ++ d))
  | WaitOutcome.fetchError d e =>
    some (Err.wrap ("getting pods managed by logs collector daemon set " ++ d) e)

/-- The six Kubernetes resource kinds created by CreateAndStart. -/
inductive Resource where
  | namespaceRes
  | serviceAccount
  | clusterRole
  | clusterRoleBinding
  | configMap
  | daemonSet
deriving DecidableEq

/-- A backend call observable in a run of CreateAndStart or of the teardown
capability: a successful creation of a resource, an invocation of the
compensating removal of a resource, and the ACTION REQUIRED log line emitted
when such a removal fails, naming the resource it failed to remove. -/
inductive Event where
  | create : Resource → Event
  | remove : Resource → Event
  | logActionRequired : Resource → Event
deriving DecidableEq

/-- Environment of one CreateAndStart call: the result of uuid generation, of
each resource-creation backend call, of the two NewPortSpec constructions and
of the port translation helper, the result of each compensating removal call,
and the environment fed to the readiness waiter. -/
structure CreateEnv where
  uuid : Except Err String
  createRes : Resource → Except Err Unit
  httpPortRes : Except Err Unit
  tcpPortRes : Except Err Unit
  portsTranslationRes : Except Err Unit
  removeRes : Resource → Except Err Unit
  wait : WaitEnv

/-- One removeXFunc closure of CreateAndStart: invoke the removal backend call;
a removal failure is only logged (with the ACTION REQUIRED call-to-action
naming the resource) and never returned. -/
def removeFunc (env : CreateEnv) (r : Resource) : List Event :=
  Event.remove r ::
    (match env.removeRes r with
     | Except.error _ => [Event.logActionRequired r]
     | Except.ok _ => [])

/-- Running the deferred removal closures for the created resources, in LIFO
order (the resources are listed in creation order; the defer registered last
runs first). -/
def unwind (env : CreateEnv) : List Resource → List Event
  | [] => []
  | r :: rest => unwind env rest ++ removeFunc env r

/-- The dependency order in which CreateAndStart creates the six resources. -/
def createOrder : List Resource :=
  [Resource.namespaceRes, Resource.serviceAccount, Resource.clusterRole,
   Resource.clusterRoleBinding, Resource.configMap, Resource.daemonSet]

/-- CreateAndStart: sequentially create the six resources in dependency order,
registering a deferred compensating removal (guarded by a shouldRemove flag)
after each successful creation; build the two port specs and translate them;
wait for readiness; on any failure the deferred removals of everything created
so far run in LIFO order and the propagated cause is returned. On success all
shouldRemove flags are disarmed and the teardown capability
(removeLogsCollectorFunc) is returned; the Except payload is the list of
events that invoking that capability produces. The second component is the
trace of events of the CreateAndStart call itself. -/
def CreateAndStart (dsName : String) (env : CreateEnv) :
    Except Err (List Event) × List Event :=
  match env.uuid with
  | Except.error e =>
    (Except.error (Err.wrap "creating uuid for logs collector" e), [])
  | Except.ok _ =>
  match env.createRes Resource.namespaceRes with
  | Except.error e =>
    (Except.error (Err.wrap "creating namespace for logs collector" e), [])
  | Except.ok _ =>
  match env.createRes Resource.serviceAccount with
  | Except.error e =>
    (Except.error (Err.wrap "creating service account for fluent bit log collector" e),
     [Resource.namespaceRes].map Event.create ++ unwind env [Resource.namespaceRes])
  | Except.ok _ =>
  match env.createRes Resource.clusterRole with
  | Except.error e =>
    (Except.error (Err.wrap "creating cluster role for fluent bit log collector" e),
     [Resource.namespaceRes, Resource.serviceAccount].map Event.create ++
       unwind env [Resource.namespaceRes, Resource.serviceAccount])
  | Except.ok _ =>
  match env.createRes Resource.clusterRoleBinding with
  | Except.error e =>
    (Except.error (Err.wrap "creating cluster role binding for fluent bit log collector" e),
     [Resource.namespaceRes, Resource.serviceAccount, Resource.clusterRole].map Event.create ++
       unwind env [Resource.namespaceRes, Resource.serviceAccount, Resource.clusterRole])
  | Except.ok _ =>
  match env.createRes Resource.configMap with
  | Except.error e =>
    (Except.error (Err.wrap "creating config map for fluent bit log collector" e),
     [Resource.namespaceRes, Resource.serviceAccount, Resource.clusterRole,
      Resource.clusterRoleBinding].map Event.create ++
       unwind env [Resource.namespaceRes, Resource.serviceAccount, Resource.clusterRole,
         Resource.clusterRoleBinding])
  | Except.ok _ =>
  match env.httpPortRes with
  | Except.error e =>
    (Except.error (Err.wrap "creating the log collectors HTTP port spec object" e),
     [Resource.namespaceRes, Resource.serviceAccount, Resource.clusterRole,
      Resource.clusterRoleBinding, Resource.configMap].map Event.create ++
       unwind env [Resource.namespaceRes, Resource.serviceAccount, Resource.clusterRole,
         Resource.clusterRoleBinding, Resource.configMap])
  | Except.ok _ =>
  match env.tcpPortRes with
  | Except.error e =>
    (Except.error (Err.wrap "creating the log collectors TCP port spec object" e),
     [Resource.namespaceRes, Resource.serviceAccount, Resource.clusterRole,
      Resource.clusterRoleBinding, Resource.configMap].map Event.create ++
       unwind env [Resource.namespaceRes, Resource.serviceAccount, Resource.clusterRole,
         Resource.clusterRoleBinding, Resource.configMap])
  | Except.ok _ =>
  match env.portsTranslationRes with
  | Except.error e =>
    (Except.error (Err.wrap "getting the logs collector fluent bit container ports" e),
     [Resource.namespaceRes, Resource.serviceAccount, Resource.clusterRole,
      Resource.clusterRoleBinding, Resource.configMap].map Event.create ++
       unwind env [Resource.namespaceRes, Resource.serviceAccount, Resource.clusterRole,
         Resource.clusterRoleBinding, Resource.configMap])
  | Except.ok _ =>
  match env.createRes Resource.daemonSet with
  | Except.error e =>
    (Except.error (Err.wrap "creating daemon set for fluent bit logs collector" e),
     [Resource.namespaceRes, Resource.serviceAccount, Resource.clusterRole,
      Resource.clusterRoleBinding, Resource.configMap].map Event.create ++
       unwind env [Resource.namespaceRes, Resource.serviceAccount, Resource.clusterRole,
         Resource.clusterRoleBinding, Resource.configMap])
  | Except.ok _ =>
  match waitErr (waitForAtLeastOneActivePodManagedByDaemonSet dsName env.wait).1 with
  | some e =>
    (Except.error (Err.wrap "waiting for at least one active pod managed by logs collector daemon set" e),
     createOrder.map Event.create ++ unwind env createOrder)
  | none =>
    (Except.ok (unwind env createOrder), createOrder.map Event.create)

/-- The error component of a Go (value, error) return. -/
def errOf {α : Type} : Except Err α → Option Err
  | Except.error e => some e
  | Except.ok _ => none

/-- All events of a CreateAndStart call followed by one invocation of the
teardown capability it returned (when it succeeded). -/
def runEvents (dsName : String) (env : CreateEnv) : List Event :=
  (CreateAndStart dsName env).2 ++
    (match (CreateAndStart dsName env).1 with
     | Except.ok td => td
     | Except.error _ => [])

/-- Resources whose creation appears in a trace, in order. -/
def createdResources (tr : List Event) : List Resource :=
  tr.filterMap fun e =>
    match e with
    | Event.create r => some r
    | _ => none

/-- Resources whose compensating removal was invoked in a trace, in order. -/
def removedResources (tr : List Event) : List Resource :=
  tr.filterMap fun e =>
    match e with
    | Event.remove r => some r
    | _ => none

/-- A backend call observable in a run of Clean, in order: the initial pod
listing, a node-selector patch of the daemon set (recording the selectors
applied), one WaitForPodTermination call (recording the pod name), one
RemoveDirPathFromNode call (recording the node name), the re-fetch of the
daemon set, and the final readiness wait. -/
inductive CleanEvent where
  | getPods
  | updateNodeSelectors : List (String × String) → CleanEvent
  | waitTermination : String → CleanEvent
  | removeDirFromNode : String → CleanEvent
  | getDaemonSet
  | waitReady
deriving DecidableEq

/-- Whether an event is a node-level removal of the checkpoint-db directory. -/
def CleanEvent.isRemoveDir : CleanEvent → Bool
  | CleanEvent.removeDirFromNode _ => true
  | _ => false

/-- Environment of one Clean call: the result of the pod listing, of the
evicting node-selector patch, of each per-pod termination wait (indexed by pod
name, nil meaning success), of each per-node directory removal (indexed by
node name), of the daemon-set re-fetch, of the restoring patch, and the
environment fed to the final readiness wait. -/
structure CleanEnv where
  podsRes : Except Err (List Pod)
  updateEvictRes : Except Err Unit
  termRes : String → Option Err
  removeDirRes : String → Option Err
  getDsRes : Except Err Unit
  updateRestoreRes : Except Err Unit
  wait : WaitEnv

/-- The node selector patched onto the daemon set to evict every pod:
a label matched by no real node. -/
def evictNodeSelectors : List (String × String) := [("non-existent-label", "true")]

/-- The termination-wait loop of Clean: for each recorded pod, in order, call
WaitForPodTermination; the first failure is propagated immediately. Returns
the Go error (nil on success) and the wait events performed. -/
def waitTerms (termRes : String → Option Err) : List Pod → Option Err × List CleanEvent
  | [] => (none, [])
  | p :: rest =>
    match termRes p.name with
    | some e =>
      (some (Err.wrap ("waiting for pod " ++ p.name) e), [CleanEvent.waitTermination p.name])
    | none =>
      ((waitTerms termRes rest).1,
       CleanEvent.waitTermination p.name :: (waitTerms termRes rest).2)

/-- The removal loop of Clean: for each recorded node, in order, call
RemoveDirPathFromNode; the first failure is propagated immediately. -/
def removeDirs (removeDirRes : String → Option Err) :
    List String → Option Err × List CleanEvent
  | [] => (none, [])
  | n :: rest =>
    match removeDirRes n with
    | some e =>
      (some (Err.wrap ("removing dir path from node " ++ n) e), [CleanEvent.removeDirFromNode n])
    | none =>
      ((removeDirs removeDirRes rest).1,
       CleanEvent.removeDirFromNode n :: (removeDirs removeDirRes rest).2)

/-- Clean: list the pods managed by the daemon set and record their nodes;
when the listing succeeds with zero pods, return stacktrace.Propagate of the
(necessarily nil) listing error; otherwise patch the evicting node selector,
wait for every recorded pod to terminate, remove the checkpoint-db directory
on every recorded node, re-fetch the daemon set, patch the node selector back
to empty, and wait for readiness again. Any failure returns immediately.
The result is the Go error (nil on success) and the trace of backend calls. -/
def Clean (dsName : String) (env : CleanEnv) : Option Err × List CleanEvent :=
  match env.podsRes with
  | Except.error e =>
    (some (Err.wrap "getting pods managed by daemon set" e), [CleanEvent.getPods])
  | Except.ok pods =>
    if pods.isEmpty then
      (stacktracePropagate none "No pods found for logs collector daemon set",
       [CleanEvent.getPods])
    else
      match env.updateEvictRes with
      | Except.error e =>
        (some (Err.wrap "updating daemon set with node selectors" e),
         [CleanEvent.getPods, CleanEvent.updateNodeSelectors evictNodeSelectors])
      | Except.ok _ =>
        match (waitTerms env.termRes pods).1 with
        | some e =>
          (some e,
           [CleanEvent.getPods, CleanEvent.updateNodeSelectors evictNodeSelectors] ++
             (waitTerms env.termRes pods).2)
        | none =>
          match (removeDirs env.removeDirRes (pods.map Pod.nodeName)).1 with
          | some e =>
            (some e,
             [CleanEvent.getPods, CleanEvent.updateNodeSelectors evictNodeSelectors] ++
               (waitTerms env.termRes pods).2 ++
               (removeDirs env.removeDirRes (pods.map Pod.nodeName)).2)
          | none =>
            match env.getDsRes with
            | Except.error e =>
              (some (Err.wrap "getting latest" e),
               [CleanEvent.getPods, CleanEvent.updateNodeSelectors evictNodeSelectors] ++
                 (waitTerms env.termRes pods).2 ++
                 (removeDirs env.removeDirRes (pods.map Pod.nodeName)).2 ++
                 [CleanEvent.getDaemonSet])
            | Except.ok _ =>
              match env.updateRestoreRes with
              | Except.error e =>
                (some (Err.wrap "updating daemon set with node selectors" e),
                 [CleanEvent.getPods, CleanEvent.updateNodeSelectors evictNodeSelectors] ++
                   (waitTerms env.termRes pods).2 ++
                   (removeDirs env.removeDirRes (pods.map Pod.nodeName)).2 ++
                   [CleanEvent.getDaemonSet, CleanEvent.updateNodeSelectors []])
              | Except.ok _ =>
                match waitErr (waitForAtLeastOneActivePodManagedByDaemonSet dsName env.wait).1 with
                | some e =>
                  (some (Err.wrap "waiting for at least one pod managed by daemon set" e),
                   [CleanEvent.getPods, CleanEvent.updateNodeSelectors evictNodeSelectors] ++
                     (waitTerms env.termRes pods).2 ++
                     (removeDirs env.removeDirRes (pods.map Pod.nodeName)).2 ++
                     [CleanEvent.getDaemonSet, CleanEvent.updateNodeSelectors [],
                      CleanEvent.waitReady])
                | none =>
                  (none,
                   [CleanEvent.getPods, CleanEvent.updateNodeSelectors evictNodeSelectors] ++
                     (waitTerms env.termRes pods).2 ++
                     (removeDirs env.removeDirRes (pods.map Pod.nodeName)).2 ++
                     [CleanEvent.getDaemonSet, CleanEvent.updateNodeSelectors [],
                      CleanEvent.waitReady])

/-- Modelled from the spec: the constant fluentBitConfigMountPath is declared
in a file of the fluentbit package that is not part of this excerpt; the spec
calls it the well-known config mount path. Its concrete value plays no role in
the properties proved here. -/
def fluentBitConfigMountPath : String := "/fluent-bit/etc"

/-- Modelled from the spec: the constant fluentBitConfigFileName (the
main-config key of the ConfigMap payload) is declared in a file of the
fluentbit package not part of this excerpt; the pod template argument
--config=.../fluent-bit.conf in the excerpt fixes its value. -/
def fluentBitConfigFileName : String := "fluent-bit.conf"

/-- Modelled from the spec: the constant parsersFileName (the parser-config
key of the ConfigMap payload) is declared in a file of the fluentbit package
not part of this excerpt. -/
def parsersFileName : String := "parsers.conf"

/-- A filter rule handed to the config renderer (logs_collector.Filter);
opaque payload here. -/
structure LogsCollectorFilter where
  name : String
  matcher : String
deriving DecidableEq

/-- The template data built by generateFluentBitConfigStr. The label-key and
API-server fields of the Go struct come from packages outside this excerpt and
play no role in the claims, so they are omitted. -/
structure FluentBitConfigData where
  HTTPPort : Nat
  KurtosisParsersConfigFilepath : String
  LogsAggregatorHost : String
  LogsAggregatorPortNum : Nat
  Filters : List LogsCollectorFilter
deriving DecidableEq

/-- generateFluentBitConfigStr builds this data and renders a text template
with it; the rendering is an external pure collaborator, so the data itself is
the modelled output. KurtosisParsersConfigFilepath is
fmt.Sprintf of fluentBitConfigMountPath, a slash, and parsersFileName. -/
def generateFluentBitConfigData (httpPort : Nat) (aggHost : String) (aggPort : Nat)
    (filters : List LogsCollectorFilter) : FluentBitConfigData :=
  { HTTPPort := httpPort
    KurtosisParsersConfigFilepath := fluentBitConfigMountPath ++ "/" ++ parsersFileName
    LogsAggregatorHost := aggHost
    LogsAggregatorPortNum := aggPort
    Filters := filters }

/-- The ConfigMap payload map literal of createLogsCollectorConfigMap: the
rendered main config under the main-config key and the rendered parser config
under the parser-config key. -/
def createLogsCollectorConfigMapData (fluentBitConfigStr fluentBitParserConfigStr : String) :
    List (String × String) :=
  [(fluentBitConfigFileName, fluentBitConfigStr),
   (parsersFileName, fluentBitParserConfigStr)]

/-- A port spec as consumed here (port_spec.PortSpec): number and protocol. -/
structure PortSpec where
  number : Nat
  transportProtocol : String
deriving DecidableEq

/-- A native Kubernetes container port (apiv1.ContainerPort). -/
structure ContainerPort where
  containerPort : Nat
deriving DecidableEq

/-- Insertion into a Go map modelled as an association list: a duplicate key
overwrites the existing entry, otherwise the entry is appended. -/
def goMapInsert (m : List (String × PortSpec)) (k : String) (v : PortSpec) :
    List (String × PortSpec) :=
  if m.any fun kv => kv.1 = k then
    m.map fun kv => if kv.1 = k then (k, v) else kv
  else m ++ [(k, v)]

/-- The privatePorts map literal of CreateAndStart: the TCP entry is written
first, the HTTP entry second, so with equal identifiers the HTTP entry
overwrites the TCP one. -/
def privatePorts (tcpPortId httpPortId : String) (tcpSpec httpSpec : PortSpec) :
    List (String × PortSpec) :=
  goMapInsert (goMapInsert [] tcpPortId tcpSpec) httpPortId httpSpec

/-- Modelled from the spec:
shared_helpers.GetKubernetesContainerPortsFromPrivatePortSpecs is not part of
this excerpt; per the spec each private port spec is translated into one
native container-port representation. -/
def getKubernetesContainerPortsFromPrivatePortSpecs (m : List (String × PortSpec)) :
    List ContainerPort :=
  m.map fun kv => { containerPort := kv.2.number }

/-- The container ports attached to the daemon set pod template: the
translation applied to the privatePorts map. -/
def daemonSetContainerPorts (tcpPortId httpPortId : String) (tcpSpec httpSpec : PortSpec) :
    List ContainerPort :=
  getKubernetesContainerPortsFromPrivatePortSpecs
    (privatePorts tcpPortId httpPortId tcpSpec httpSpec)

/-- A pod whose first container status reports ready. -/
def readyPod : Pod :=
  { name := "p", nodeName := "n", containerStatuses := [{ ready := true }] }

/-- A wait environment whose backend reports a ready pod on every tick. -/
def okWaitEnv : WaitEnv :=
  { fetch := fun _ => PollResult.ok [readyPod], raceTimeout := false }

/-- A CreateAndStart environment in which every backend call succeeds. -/
def okCreateEnv : CreateEnv :=
  { uuid := Except.ok "u"
    createRes := fun _ => Except.ok ()
    httpPortRes := Except.ok ()
    tcpPortRes := Except.ok ()
    portsTranslationRes := Except.ok ()
    removeRes := fun _ => Except.ok ()
    wait := okWaitEnv }

/-- An environment in which the config-map creation fails and everything
else succeeds. -/
def cmFailCreateEnv : CreateEnv :=
  { okCreateEnv with
    createRes := fun r =>
      match r with
      | Resource.configMap => Except.error (Err.new "boom")
      | _ => Except.ok () }

/-- An environment in which the config-map creation fails and every
compensating removal also fails. -/
def allRemovesFailCreateEnv : CreateEnv :=
  { cmFailCreateEnv with removeRes := fun _ => Except.error (Err.new "rmfail") }

/-- Removal results in which every compensating removal succeeds. -/
def okRemoves : Resource → Except Err Unit := fun _ => Except.ok ()

/-- A pod list whose first pod is not ready while its second pod is ready. -/
def notReadyFirstPods : List Pod :=
  [{ name := "a", nodeName := "n1", containerStatuses := [{ ready := false }] },
   { name := "b", nodeName := "n2", containerStatuses := [{ ready := true }] }]

/-- A wait environment returning notReadyFirstPods on every tick. -/
def secondPodReadyWaitEnv : WaitEnv :=
  { fetch := fun _ => PollResult.ok notReadyFirstPods, raceTimeout := false }

/-- A wait environment whose backend reports no pods on tick 1 and a ready
pod from tick 2 on. -/
def readyAtTickTwoWaitEnv : WaitEnv :=
  { fetch := fun j => if 2 ≤ j then PollResult.ok [readyPod] else PollResult.ok []
    raceTimeout := false }

/-- A wait environment whose backend never reports a ready pod and never
errors. -/
def neverReadyWaitEnv : WaitEnv :=
  { fetch := fun _ => PollResult.ok [], raceTimeout := false }

/-- A wait environment whose backend listing errors on every tick. -/
def errAtTickOneWaitEnv : WaitEnv :=
  { fetch := fun _ => PollResult.err (Err.new "boom"), raceTimeout := false }

/-- A pod hosted on node n1. -/
def podOne : Pod := { name := "p1", nodeName := "n1", containerStatuses := [] }

/-- A Clean environment whose pod listing succeeds with zero pods. -/
def zeroPodsCleanEnv : CleanEnv :=
  { podsRes := Except.ok []
    updateEvictRes := Except.ok ()
    termRes := fun _ => none
    removeDirRes := fun _ => none
    getDsRes := Except.ok ()
    updateRestoreRes := Except.ok ()
    wait := okWaitEnv }

/-- A Clean environment with one recorded pod whose termination wait fails. -/
def termFailCleanEnv : CleanEnv :=
  { zeroPodsCleanEnv with
    podsRes := Except.ok [podOne]
    termRes := fun _ => some (Err.new "termfail") }

/-- The TCP ingest port spec of the end-to-end scenario. -/
def tcpIngestPortSpec : PortSpec := { number := 24224, transportProtocol := "TCP" }

/-- The HTTP control port spec of the end-to-end scenario. -/
def httpControlPortSpec : PortSpec := { number := 2020, transportProtocol := "TCP" }

lemma maxRetries_eq : maxRetries = 30 := rfl

lemma deadlineUnits_eq_maxRetries : deadlineUnits = maxRetries := rfl

lemma waitLoopAux_zero (dsName : String) (env : WaitEnv) (a : Nat) :
    waitLoopAux dsName env 0 a = (WaitOutcome.maxRetriesExceeded dsName, deadlineUnits) := rfl

lemma waitLoopAux_succ (dsName : String) (env : WaitEnv) (fuel a : Nat) :
    waitLoopAux dsName env (fuel + 1) a =
      if deadlineUnits ≤ a + 1 ∧ env.raceTimeout = true then
        (WaitOutcome.timeout dsName, deadlineUnits)
      else
        match env.fetch (a + 1) with
        | PollResult.err e => (WaitOutcome.fetchError dsName e, a + 1)
        | PollResult.ok pods =>
          if firstPodFirstContainerReady pods then (WaitOutcome.success, a + 1)
          else waitLoopAux dsName env fuel (a + 1) := rfl

/-- While every tick up to k fetches an ok pod list failing the readiness
check, the polling loop advances to attempt k unchanged. -/
lemma waitLoopAux_advance (dsName : String) (env : WaitEnv) (k : Nat)
    (hkmax : k ≤ maxRetries)
    (hrace : env.raceTimeout = true → k < maxRetries) :
    ∀ fuel a, a + fuel = maxRetries → a ≤ k →
      (∀ j, a < j → j ≤ k → ∃ pods, env.fetch j = PollResult.ok pods ∧
          firstPodFirstContainerReady pods = false) →
      waitLoopAux dsName env fuel a = waitLoopAux dsName env (maxRetries - k) k := by
  intro fuel
  induction fuel with
  | zero =>
    intro a hsum hak _
    have hk : k = maxRetries := by omega
    have ha : a = maxRetries := by omega
    subst hk; subst ha
    simp [Nat.sub_self]
  | succ fuel ih =>
    intro a hsum hak hun
    rcases Nat.eq_or_lt_of_le hak with heq | hlt
    · subst heq
      have hfuel : maxRetries - a = fuel + 1 := by omega
      rw [hfuel]
    · rw [waitLoopAux_succ]
      have hD := deadlineUnits_eq_maxRetries
      have hcond : ¬(deadlineUnits ≤ a + 1 ∧ env.raceTimeout = true) := by
        rintro ⟨hd, hr⟩
        have := hrace hr
        omega
      rw [if_neg hcond]
      obtain ⟨pods, hf, hnr⟩ := hun (a + 1) (by omega) (by omega)
      simp only [hf, hnr]
      simp only [Bool.false_eq_true, if_false]
      exact ih (a + 1) (by omega) (by omega) (fun j hj1 hj2 => hun j (by omega) hj2)

/-- Claim C2 counterexample: a pod list whose first pod is not ready but whose
second pod is ready satisfies the readiness predicate as the claim words it,
yet the waiter, fed that list on every tick, never returns success - the
source checks only the first container status of the first pod of the list. -/
theorem waiter_ignores_later_pods_counterexample :
    specAnyPodAnyContainerReady notReadyFirstPods = true ∧
    (waitForAtLeastOneActivePodManagedByDaemonSet "ds" secondPodReadyWaitEnv).1 =
      WaitOutcome.maxRetriesExceeded "ds" ∧
    WaitOutcome.maxRetriesExceeded "ds" ≠ WaitOutcome.success := by
  refine ⟨rfl, rfl, ?_⟩
  intro h
  exact WaitOutcome.noConfusion h

/-- Claim C2 (amended): for every run of the readiness waiter, the waiter
returns success exactly at the first polling tick k at which the fetched pod
list passes the check the source performs - the list is non-empty and its
first pod's first container status reports ready - given that every earlier
tick fetched a list failing that check and, when k is the final tick, the
select does not pick the deadline branch. -/
theorem waiter_success_first_ready_first_pod (dsName : String) (env : WaitEnv) (k : Nat)
    (hk1 : 1 ≤ k) (hkmax : k ≤ maxRetries)
    (hrace : env.raceTimeout = true → k < maxRetries)
    (hunready : ∀ j, 1 ≤ j → j < k → ∃ pods, env.fetch j = PollResult.ok pods ∧
        firstPodFirstContainerReady pods = false)
    (hready : ∃ pods, env.fetch k = PollResult.ok pods ∧
        firstPodFirstContainerReady pods = true) :
    waitForAtLeastOneActivePodManagedByDaemonSet dsName env = (WaitOutcome.success, k) := by
  have hM := maxRetries_eq
  have hD := deadlineUnits_eq_maxRetries
  have hadv := waitLoopAux_advance dsName env (k - 1) (by omega) (fun _ => by omega)
      maxRetries 0 (by omega) (by omega)
      (fun j hj1 hj2 => hunready j (by omega) (by omega))
  unfold waitForAtLeastOneActivePodManagedByDaemonSet
  rw [hadv]
  have hs : maxRetries - (k - 1) = (maxRetries - k) + 1 := by omega
  rw [hs, waitLoopAux_succ]
  have hcond : ¬(deadlineUnits ≤ (k - 1) + 1 ∧ env.raceTimeout = true) := by
    rintro ⟨hd, hr⟩
    have := hrace hr
    omega
  rw [if_neg hcond]
  obtain ⟨pods, hf, hr⟩ := hready
  have hk1' : (k - 1) + 1 = k := by omega
  rw [hk1']
  simp only [hf, hr, if_true]

/-- Witness for the amended claim C2: with no pods on tick 1 and a ready pod
on tick 2, the waiter returns success at tick 2. -/
theorem waiter_success_first_ready_first_pod_witness :
    waitForAtLeastOneActivePodManagedByDaemonSet "ds" readyAtTickTwoWaitEnv =
      (WaitOutcome.success, 2) :=
  waiter_success_first_ready_first_pod "ds" readyAtTickTwoWaitEnv 2 (by decide) (by decide)
    (fun _ => by decide)
    (fun j hj1 hj2 => by
      have hj : j = 1 := by omega
      subst hj
      exact ⟨[], rfl, rfl⟩)
    ⟨[readyPod], rfl, rfl⟩

/-- Claim C5: against a backend that never reports a ready container and never
errors, the waiter terminates with one of the two timeout failures - the
deadline branch or the exhausted attempt counter - at or before
maxRetries * retryInterval = 30 time units elapsed. -/
theorem waiter_timeout_bounded (dsName : String) (env : WaitEnv)
    (hunready : ∀ j, 1 ≤ j → j ≤ maxRetries → ∃ pods, env.fetch j = PollResult.ok pods ∧
        firstPodFirstContainerReady pods = false) :
    ((waitForAtLeastOneActivePodManagedByDaemonSet dsName env).1 = WaitOutcome.timeout dsName ∨
      (waitForAtLeastOneActivePodManagedByDaemonSet dsName env).1 =
        WaitOutcome.maxRetriesExceeded dsName) ∧
    (waitForAtLeastOneActivePodManagedByDaemonSet dsName env).2 ≤
      maxRetries * retryIntervalUnits := by
  have hM := maxRetries_eq
  have hD := deadlineUnits_eq_maxRetries
  unfold waitForAtLeastOneActivePodManagedByDaemonSet
  by_cases hr : env.raceTimeout = true
  · have hadv := waitLoopAux_advance dsName env (maxRetries - 1) (by omega) (fun _ => by omega)
        maxRetries 0 (by omega) (by omega)
        (fun j hj1 hj2 => hunready j (by omega) (by omega))
    rw [hadv]
    have hs : maxRetries - (maxRetries - 1) = 0 + 1 := by omega
    rw [hs, waitLoopAux_succ]
    have hcond : deadlineUnits ≤ (maxRetries - 1) + 1 ∧ env.raceTimeout = true :=
      ⟨by omega, hr⟩
    rw [if_pos hcond]
    refine ⟨Or.inl rfl, ?_⟩
    have : maxRetries * retryIntervalUnits = deadlineUnits := rfl
    omega
  · have hadv := waitLoopAux_advance dsName env maxRetries (by omega) (fun h => absurd h hr)
        maxRetries 0 (by omega) (by omega)
        (fun j hj1 hj2 => hunready j (by omega) hj2)
    rw [hadv, Nat.sub_self, waitLoopAux_zero]
    refine ⟨Or.inr rfl, ?_⟩
    have : maxRetries * retryIntervalUnits = deadlineUnits := rfl
    omega

/-- Witness for claim C5: a backend that always returns an empty pod list
drives the waiter into a timeout failure within the elapsed-time bound. -/
theorem waiter_timeout_bounded_witness :
    (((waitForAtLeastOneActivePodManagedByDaemonSet "ds" neverReadyWaitEnv).1 =
        WaitOutcome.timeout "ds" ∨
      (waitForAtLeastOneActivePodManagedByDaemonSet "ds" neverReadyWaitEnv).1 =
        WaitOutcome.maxRetriesExceeded "ds") ∧
    (waitForAtLeastOneActivePodManagedByDaemonSet "ds" neverReadyWaitEnv).2 ≤
      maxRetries * retryIntervalUnits) :=
  waiter_timeout_bounded "ds" neverReadyWaitEnv (fun _ _ _ => ⟨[], rfl, rfl⟩)

/-- Claim C7: when the fetch performed on a polling tick returns a backend
error, the waiter returns immediately at that tick, with the backend error
wrapped together with the daemon set identity, an outcome distinct from both
the deadline-timeout failure and the exhausted-attempts failure. -/
theorem waiter_aborts_on_fetch_error (dsName : String) (env : WaitEnv) (k : Nat) (e : Err)
    (hk1 : 1 ≤ k) (hkmax : k ≤ maxRetries)
    (hrace : env.raceTimeout = true → k < maxRetries)
    (hunready : ∀ j, 1 ≤ j → j < k → ∃ pods, env.fetch j = PollResult.ok pods ∧
        firstPodFirstContainerReady pods = false)
    (herr : env.fetch k = PollResult.err e) :
    waitForAtLeastOneActivePodManagedByDaemonSet dsName env =
      (WaitOutcome.fetchError dsName e, k) ∧
    WaitOutcome.fetchError dsName e ≠ WaitOutcome.timeout dsName ∧
    WaitOutcome.fetchError dsName e ≠ WaitOutcome.maxRetriesExceeded dsName := by
  have hM := maxRetries_eq
  have hD := deadlineUnits_eq_maxRetries
  refine ⟨?_, fun h => WaitOutcome.noConfusion h, fun h => WaitOutcome.noConfusion h⟩
  have hadv := waitLoopAux_advance dsName env (k - 1) (by omega) (fun _ => by omega)
      maxRetries 0 (by omega) (by omega)
      (fun j hj1 hj2 => hunready j (by omega) (by omega))
  unfold waitForAtLeastOneActivePodManagedByDaemonSet
  rw [hadv]
  have hs : maxRetries - (k - 1) = (maxRetries - k) + 1 := by omega
  rw [hs, waitLoopAux_succ]
  have hcond : ¬(deadlineUnits ≤ (k - 1) + 1 ∧ env.raceTimeout = true) := by
    rintro ⟨hd, hr⟩
    have := hrace hr
    omega
  rw [if_neg hcond]
  have hk1' : (k - 1) + 1 = k := by omega
  rw [hk1']
  simp only [herr]

/-- Witness for claim C7: a backend erroring on the first tick makes the
waiter return the wrapped backend error at tick 1. -/
theorem waiter_aborts_on_fetch_error_witness :
    waitForAtLeastOneActivePodManagedByDaemonSet "ds" errAtTickOneWaitEnv =
      (WaitOutcome.fetchError "ds" (Err.new "boom"), 1) ∧
    WaitOutcome.fetchError "ds" (Err.new "boom") ≠ WaitOutcome.timeout "ds" ∧
    WaitOutcome.fetchError "ds" (Err.new "boom") ≠ WaitOutcome.maxRetriesExceeded "ds" :=
  waiter_aborts_on_fetch_error "ds" errAtTickOneWaitEnv 1 (Err.new "boom")
    (by decide) (by decide) (fun _ => by decide)
    (fun j hj1 hj2 => absurd (lt_of_le_of_lt hj1 hj2) (by decide))
    rfl

lemma removedResources_append (l1 l2 : List Event) :
    removedResources (l1 ++ l2) = removedResources l1 ++ removedResources l2 := by
  simp [removedResources, List.filterMap_append]

lemma createdResources_append (l1 l2 : List Event) :
    createdResources (l1 ++ l2) = createdResources l1 ++ createdResources l2 := by
  simp [createdResources, List.filterMap_append]

lemma removedResources_removeFunc (env : CreateEnv) (r : Resource) :
    removedResources (removeFunc env r) = [r] := by
  cases h : env.removeRes r <;> simp [removeFunc, h, removedResources]

lemma createdResources_removeFunc (env : CreateEnv) (r : Resource) :
    createdResources (removeFunc env r) = [] := by
  cases h : env.removeRes r <;> simp [removeFunc, h, createdResources]

lemma removedResources_unwind (env : CreateEnv) (c : List Resource) :
    removedResources (unwind env c) = c.reverse := by
  induction c with
  | nil => simp [unwind, removedResources]
  | cons r rest ih =>
    simp [unwind, removedResources_append, removedResources_removeFunc, ih]

lemma createdResources_unwind (env : CreateEnv) (c : List Resource) :
    createdResources (unwind env c) = [] := by
  induction c with
  | nil => simp [unwind, createdResources]
  | cons r rest ih =>
    simp [unwind, createdResources_append, createdResources_removeFunc, ih]

lemma removedResources_map_create (c : List Resource) :
    removedResources (c.map Event.create) = [] := by
  induction c with
  | nil => simp [removedResources]
  | cons r rest ih => simp only [removedResources] at ih ⊢; simp [ih]

lemma createdResources_map_create (c : List Resource) :
    createdResources (c.map Event.create) = c := by
  induction c with
  | nil => simp [createdResources]
  | cons r rest ih => simpa [createdResources] using ih

/-- Every run of CreateAndStart either fails with a trace consisting of the
creations that succeeded followed by the unwinding of exactly those resources,
or commits with a trace of all six creations and the teardown capability set
to the unwinding of all six resources. -/
lemma CreateAndStart_shape (dsName : String) (env : CreateEnv) :
    ∃ c : List Resource, c.Nodup ∧
      ((∃ e, CreateAndStart dsName env =
          (Except.error e, c.map Event.create ++ unwind env c)) ∨
        (CreateAndStart dsName env =
          (Except.ok (unwind env createOrder), c.map Event.create) ∧ c = createOrder)) := by
  unfold CreateAndStart
  cases hu : env.uuid with
  | error e => exact ⟨[], by decide, Or.inl ⟨Err.wrap "creating uuid for logs collector" e, by simp [unwind]⟩⟩
  | ok _ =>
  cases h1 : env.createRes Resource.namespaceRes with
  | error e => exact ⟨[], by decide, Or.inl ⟨Err.wrap "creating namespace for logs collector" e, by simp [unwind]⟩⟩
  | ok _ =>
  cases h2 : env.createRes Resource.serviceAccount with
  | error e => exact ⟨[Resource.namespaceRes], by decide, Or.inl ⟨Err.wrap "creating service account for fluent bit log collector" e, by simp⟩⟩
  | ok _ =>
  cases h3 : env.createRes Resource.clusterRole with
  | error e =>
    exact ⟨[Resource.namespaceRes, Resource.serviceAccount], by decide, Or.inl ⟨Err.wrap "creating cluster role for fluent bit log collector" e, by simp⟩⟩
  | ok _ =>
  cases h4 : env.createRes Resource.clusterRoleBinding with
  | error e =>
    exact ⟨[Resource.namespaceRes, Resource.serviceAccount, Resource.clusterRole],
      by decide, Or.inl ⟨Err.wrap "creating cluster role binding for fluent bit log collector" e, by simp⟩⟩
  | ok _ =>
  cases h5 : env.createRes Resource.configMap with
  | error e =>
    exact ⟨[Resource.namespaceRes, Resource.serviceAccount, Resource.clusterRole,
      Resource.clusterRoleBinding], by decide, Or.inl ⟨Err.wrap "creating config map for fluent bit log collector" e, by simp⟩⟩
  | ok _ =>
  cases h6 : env.httpPortRes with
  | error e =>
    exact ⟨[Resource.namespaceRes, Resource.serviceAccount, Resource.clusterRole,
      Resource.clusterRoleBinding, Resource.configMap], by decide, Or.inl ⟨Err.wrap "creating the log collectors HTTP port spec object" e, by simp⟩⟩
  | ok _ =>
  cases h7 : env.tcpPortRes with
  | error e =>
    exact ⟨[Resource.namespaceRes, Resource.serviceAccount, Resource.clusterRole,
      Resource.clusterRoleBinding, Resource.configMap], by decide, Or.inl ⟨Err.wrap "creating the log collectors TCP port spec object" e, by simp⟩⟩
  | ok _ =>
  cases h8 : env.portsTranslationRes with
  | error e =>
    exact ⟨[Resource.namespaceRes, Resource.serviceAccount, Resource.clusterRole,
      Resource.clusterRoleBinding, Resource.configMap], by decide, Or.inl ⟨Err.wrap "getting the logs collector fluent bit container ports" e, by simp⟩⟩
  | ok _ =>
  cases h9 : env.createRes Resource.daemonSet with
  | error e =>
    exact ⟨[Resource.namespaceRes, Resource.serviceAccount, Resource.clusterRole,
      Resource.clusterRoleBinding, Resource.configMap], by decide, Or.inl ⟨Err.wrap "creating daemon set for fluent bit logs collector" e, by simp⟩⟩
  | ok _ =>
  cases hw : waitErr (waitForAtLeastOneActivePodManagedByDaemonSet dsName env.wait).1 with
  | some e => exact ⟨createOrder, by decide, Or.inl ⟨Err.wrap "waiting for at least one active pod managed by logs collector daemon set" e, by simp⟩⟩
  | none => exact ⟨createOrder, by decide, Or.inr ⟨by simp, rfl⟩⟩

/-- Claim C1: whenever CreateAndStart returns an error - a failure at any of
the six creation steps, at port-spec construction or translation, or at the
readiness wait - the compensating removals invoked in its trace are exactly
the resources created in that call, in reverse creation order. -/
theorem CreateAndStart_rolls_back_on_failure (dsName : String) (env : CreateEnv) (e : Err)
    (h : (CreateAndStart dsName env).1 = Except.error e) :
    removedResources (CreateAndStart dsName env).2 =
      (createdResources (CreateAndStart dsName env).2).reverse := by
  obtain ⟨c, hnd, ⟨e', heq⟩ | ⟨heq, hc⟩⟩ := CreateAndStart_shape dsName env
  · rw [heq]
    simp [removedResources_append, createdResources_append, removedResources_unwind,
      createdResources_unwind, removedResources_map_create, createdResources_map_create]
  · rw [heq] at h
    exact absurd h (by simp)

/-- Witness for claim C1: with the config-map creation failing, the failing
run unwinds exactly the four resources created before it, most recent first. -/
theorem CreateAndStart_rolls_back_on_failure_witness :
    removedResources (CreateAndStart "ds" cmFailCreateEnv).2 =
      (createdResources (CreateAndStart "ds" cmFailCreateEnv).2).reverse :=
  CreateAndStart_rolls_back_on_failure "ds" cmFailCreateEnv
    (Err.wrap "creating config map for fluent bit log collector" (Err.new "boom")) rfl

/-- Claim C6: on every successful CreateAndStart, invoking the returned
teardown capability removes exactly the six resources in reverse dependency
order: daemon set, config map, cluster role binding, cluster role, service
account, namespace. -/
theorem teardown_removes_in_reverse_dependency_order (dsName : String) (env : CreateEnv)
    (td : List Event) (h : (CreateAndStart dsName env).1 = Except.ok td) :
    removedResources td =
      [Resource.daemonSet, Resource.configMap, Resource.clusterRoleBinding,
       Resource.clusterRole, Resource.serviceAccount, Resource.namespaceRes] := by
  obtain ⟨c, hnd, ⟨e', heq⟩ | ⟨heq, hc⟩⟩ := CreateAndStart_shape dsName env
  · rw [heq] at h
    exact absurd h (by simp)
  · rw [heq] at h
    simp only [Except.ok.injEq] at h
    subst h
    rw [removedResources_unwind]
    rfl

/-- Witness for claim C6: with every backend call succeeding and a pod ready
on the first tick, the returned teardown capability removes the six resources
in reverse dependency order. -/
theorem teardown_removes_in_reverse_dependency_order_witness :
    removedResources (unwind okCreateEnv createOrder) =
      [Resource.daemonSet, Resource.configMap, Resource.clusterRoleBinding,
       Resource.clusterRole, Resource.serviceAccount, Resource.namespaceRes] :=
  teardown_removes_in_reverse_dependency_order "ds" okCreateEnv
    (unwind okCreateEnv createOrder) rfl

lemma remove_mem_removeFunc (env : CreateEnv) (r res : Resource) :
    Event.remove res ∈ removeFunc env r ↔ res = r := by
  cases h : env.removeRes r <;> simp [removeFunc, h]

lemma remove_mem_unwind_iff (env : CreateEnv) (res : Resource) (c : List Resource) :
    Event.remove res ∈ unwind env c ↔ res ∈ c := by
  induction c with
  | nil => simp [unwind]
  | cons r rest ih =>
    simp only [unwind, List.mem_append, ih, remove_mem_removeFunc, List.mem_cons]
    tauto

lemma log_mem_unwind (env : CreateEnv) (res : Resource) (e' : Err)
    (hf : env.removeRes res = Except.error e') (c : List Resource) (h : res ∈ c) :
    Event.logActionRequired res ∈ unwind env c := by
  induction c with
  | nil => cases h
  | cons r rest ih =>
    simp only [unwind, List.mem_append]
    rcases List.mem_cons.mp h with heq | hm
    · subst heq
      right
      simp [removeFunc, hf]
    · exact Or.inl (ih hm)

lemma count_remove_removeFunc (env : CreateEnv) (r res : Resource) :
    (removeFunc env r).count (Event.remove res) = if r = res then 1 else 0 := by
  by_cases hr : r = res
  · subst hr
    cases h : env.removeRes r <;> simp [removeFunc, h]
  · have hr2 : ¬ res = r := fun hh => hr hh.symm
    cases h : env.removeRes r <;>
      simp [removeFunc, h, hr, hr2, List.count_cons, List.count_nil]

lemma count_remove_unwind (env : CreateEnv) (res : Resource) (c : List Resource)
    (hnd : c.Nodup) :
    (unwind env c).count (Event.remove res) = if res ∈ c then 1 else 0 := by
  induction c with
  | nil => simp [unwind]
  | cons r rest ih =>
    obtain ⟨hnr, hnd2⟩ := List.nodup_cons.mp hnd
    simp only [unwind, List.count_append, ih hnd2, count_remove_removeFunc]
    by_cases h : r = res
    · subst h
      simp [hnr]
    · have h2 : ¬ res = r := fun hh => h hh.symm
      simp [h, h2, List.mem_cons]

lemma count_remove_map_create (c : List Resource) (res : Resource) :
    (c.map Event.create).count (Event.remove res) = 0 := by
  induction c with
  | nil => simp
  | cons r rest ih => simp [List.count_cons, ih]

/-- The combined events of a CreateAndStart call followed by one invocation
of the teardown capability always consist of the creations of a duplicate-free
set of resources followed by the unwinding of exactly those resources. -/
lemma runEvents_shape (dsName : String) (env : CreateEnv) :
    ∃ c : List Resource, c.Nodup ∧
      runEvents dsName env = c.map Event.create ++ unwind env c := by
  obtain ⟨c, hnd, ⟨e, heq⟩ | ⟨heq, hc⟩⟩ := CreateAndStart_shape dsName env
  · exact ⟨c, hnd, by simp [runEvents, heq]⟩
  · subst hc
    exact ⟨createOrder, hnd, by simp [runEvents, heq]⟩

/-- The error returned by CreateAndStart does not depend on the outcomes of
the compensating removal calls. -/
lemma CreateAndStart_err_independent_of_removes (dsName : String) (env : CreateEnv)
    (r' : Resource → Except Err Unit) :
    errOf (CreateAndStart dsName { env with removeRes := r' }).1 =
      errOf (CreateAndStart dsName env).1 := by
  obtain ⟨u, cres, hpr, tpr, xlr, rres, w⟩ := env
  simp only [CreateAndStart]
  cases u with
  | error e => rfl
  | ok _ =>
  cases h1 : cres Resource.namespaceRes with
  | error e => rfl
  | ok _ =>
  cases h2 : cres Resource.serviceAccount with
  | error e => rfl
  | ok _ =>
  cases h3 : cres Resource.clusterRole with
  | error e => rfl
  | ok _ =>
  cases h4 : cres Resource.clusterRoleBinding with
  | error e => rfl
  | ok _ =>
  cases h5 : cres Resource.configMap with
  | error e => rfl
  | ok _ =>
  cases h6 : hpr with
  | error e => rfl
  | ok _ =>
  cases h7 : tpr with
  | error e => rfl
  | ok _ =>
  cases h8 : xlr with
  | error e => rfl
  | ok _ =>
  cases h9 : cres Resource.daemonSet with
  | error e => rfl
  | ok _ =>
  cases hw : waitErr (waitForAtLeastOneActivePodManagedByDaemonSet dsName w).1 with
  | some e => rfl
  | none => rfl

/-- Claim C9: across a CreateAndStart call and one invocation of its teardown
capability, a failing compensating removal is invoked exactly once (never
retried), its failure is logged with the call-to-action naming that resource,
and the error CreateAndStart returns is independent of the outcomes of all
removal calls - removal failures are never propagated to the caller. -/
theorem remove_failures_logged_not_propagated (dsName : String) (env : CreateEnv)
    (r' : Resource → Except Err Unit) (res : Resource) (e' : Err)
    (hfail : env.removeRes res = Except.error e')
    (hinv : Event.remove res ∈ runEvents dsName env) :
    errOf (CreateAndStart dsName { env with removeRes := r' }).1 =
      errOf (CreateAndStart dsName env).1 ∧
    Event.logActionRequired res ∈ runEvents dsName env ∧
    (runEvents dsName env).count (Event.remove res) = 1 := by
  obtain ⟨c, hnd, hsh⟩ := runEvents_shape dsName env
  rw [hsh] at hinv ⊢
  have hresc : res ∈ c := by
    rcases List.mem_append.mp hinv with hml | hmu
    · obtain ⟨a, _, hae⟩ := List.mem_map.mp hml
      exact absurd hae (by simp)
    · exact (remove_mem_unwind_iff env res c).mp hmu
  refine ⟨CreateAndStart_err_independent_of_removes dsName env r', ?_, ?_⟩
  · exact List.mem_append.mpr (Or.inr (log_mem_unwind env res e' hfail c hresc))
  · rw [List.count_append, count_remove_map_create, count_remove_unwind env res c hnd]
    simp [hresc]

/-- Witness for claim C9: with the config-map creation failing and every
removal failing, the namespace removal is invoked once, its failure is logged
with the call-to-action, and making all removals succeed instead leaves the
returned error unchanged. -/
theorem remove_failures_logged_not_propagated_witness :
    errOf (CreateAndStart "ds" { allRemovesFailCreateEnv with removeRes := okRemoves }).1 =
      errOf (CreateAndStart "ds" allRemovesFailCreateEnv).1 ∧
    Event.logActionRequired Resource.namespaceRes ∈ runEvents "ds" allRemovesFailCreateEnv ∧
    (runEvents "ds" allRemovesFailCreateEnv).count (Event.remove Resource.namespaceRes) = 1 :=
  remove_failures_logged_not_propagated "ds" allRemovesFailCreateEnv okRemoves
    Resource.namespaceRes (Err.new "rmfail") rfl (by decide)

lemma any_take_eq_false {α : Type} (f : α → Bool) (l : List α) (n : Nat)
    (h : l.any f = false) : (l.take n).any f = false := by
  rw [List.any_eq_false] at h ⊢
  intro x hx
  exact h x (List.take_subset n l hx)

/-- When a prefix-free block A carries no f-element and some f-element shows
up within the first n positions of A ++ B, those n positions cover all of A. -/
lemma mem_take_of_append {α : Type} (A B : List α) (n : Nat) (f : α → Bool)
    (hA : A.any f = false) (h : ((A ++ B).take n).any f = true) :
    ∀ x ∈ A, x ∈ (A ++ B).take n := by
  intro x hx
  rw [List.take_append_eq_append_take] at h ⊢
  by_cases hn : A.length ≤ n
  · rw [List.take_of_length_le hn]
    exact List.mem_append_left _ hx
  · exfalso
    have h0 : n - A.length = 0 := by omega
    rw [h0] at h
    simp only [List.take_zero, List.append_nil] at h
    rw [any_take_eq_false f A n hA] at h
    cases h

lemma waitTerms_fst_none_iff (t : String → Option Err) (l : List Pod) :
    (waitTerms t l).1 = none ↔ ∀ p ∈ l, t p.name = none := by
  induction l with
  | nil => simp [waitTerms]
  | cons p rest ih =>
    cases ht : t p.name with
    | some e => simp [waitTerms, ht]
    | none => simp [waitTerms, ht, ih]

lemma waitTerms_no_removeDir (t : String → Option Err) (l : List Pod) :
    ((waitTerms t l).2).any CleanEvent.isRemoveDir = false := by
  induction l with
  | nil => simp [waitTerms]
  | cons p rest ih =>
    cases ht : t p.name with
    | some e => simp [waitTerms, ht, CleanEvent.isRemoveDir]
    | none => simp [waitTerms, ht, CleanEvent.isRemoveDir, ih]

lemma waitTerms_mem_of_none (t : String → Option Err) (l : List Pod)
    (h : (waitTerms t l).1 = none) :
    ∀ p ∈ l, CleanEvent.waitTermination p.name ∈ (waitTerms t l).2 := by
  induction l with
  | nil => intro p hp; cases hp
  | cons q rest ih =>
    cases ht : t q.name with
    | some e => simp [waitTerms, ht] at h
    | none =>
      intro p hp
      simp only [waitTerms, ht] at h ⊢
      rcases List.mem_cons.mp hp with heq | hm
      · subst heq; exact List.mem_cons_self _ _
      · exact List.mem_cons_of_mem _ (ih h p hm)

/-- Claim C3 evaluation: with a successful listing of zero pods, Clean returns
a nil error after only the listing call - the later steps are skipped, but no
error is reported to the caller, because the source hands the nil listing
error to stacktrace.Propagate, which returns nil for a nil cause. -/
theorem Clean_zero_pods_returns_nil_error :
    Clean "ds" zeroPodsCleanEnv = (none, [CleanEvent.getPods]) := rfl

/-- Claim C4: in every Clean run whose listing recorded the given pods, a
node-level removal of the checkpoint-db directory can appear among the first n
trace events only if the termination wait succeeded for every recorded pod and
the wait event of each recorded pod already appears among those n events; and
when the wait fails for any recorded pod, Clean returns a non-nil error and no
node-level removal appears anywhere in its trace. -/
theorem Clean_no_node_removal_until_all_terminations (dsName : String) (env : CleanEnv)
    (pods : List Pod) (n : Nat) (p : Pod)
    (hp : env.podsRes = Except.ok pods) (hmem : p ∈ pods) :
    (((Clean dsName env).2.take n).any CleanEvent.isRemoveDir = true →
      CleanEvent.waitTermination p.name ∈ (Clean dsName env).2.take n ∧
        env.termRes p.name = none) ∧
    (env.termRes p.name ≠ none →
      (Clean dsName env).1.isSome = true ∧
        (Clean dsName env).2.any CleanEvent.isRemoveDir = false) := by
  cases pods with
  | nil => cases hmem
  | cons q qs =>
  simp only [Clean, hp, List.isEmpty_cons, Bool.false_eq_true, if_false]
  cases hev : env.updateEvictRes with
  | error e =>
    dsimp only
    constructor
    · intro hAny
      rw [any_take_eq_false CleanEvent.isRemoveDir
        [CleanEvent.getPods, CleanEvent.updateNodeSelectors evictNodeSelectors] n rfl] at hAny
      exact absurd hAny Bool.false_ne_true
    · intro _
      exact ⟨rfl, rfl⟩
  | ok u =>
    dsimp only
    cases hwt : (waitTerms env.termRes (q :: qs)).1 with
    | some e =>
      dsimp only
      have hnone : (([CleanEvent.getPods, CleanEvent.updateNodeSelectors evictNodeSelectors] ++
          (waitTerms env.termRes (q :: qs)).2).any CleanEvent.isRemoveDir) = false := by
        rw [List.any_append, waitTerms_no_removeDir]
        rfl
      constructor
      · intro hAny
        rw [any_take_eq_false _ _ n hnone] at hAny
        exact absurd hAny Bool.false_ne_true
      · intro _
        exact ⟨rfl, hnone⟩
    | none =>
      dsimp only
      have htall : ∀ p2 ∈ q :: qs, env.termRes p2.name = none :=
        (waitTerms_fst_none_iff _ _).mp hwt
      have hA : (([CleanEvent.getPods, CleanEvent.updateNodeSelectors evictNodeSelectors] ++
          (waitTerms env.termRes (q :: qs)).2).any CleanEvent.isRemoveDir) = false := by
        rw [List.any_append, waitTerms_no_removeDir]
        rfl
      have hkey : ∀ B : List CleanEvent,
          ((([CleanEvent.getPods, CleanEvent.updateNodeSelectors evictNodeSelectors] ++
              (waitTerms env.termRes (q :: qs)).2) ++ B).take n).any CleanEvent.isRemoveDir =
            true →
          CleanEvent.waitTermination p.name ∈
            (([CleanEvent.getPods, CleanEvent.updateNodeSelectors evictNodeSelectors] ++
              (waitTerms env.termRes (q :: qs)).2) ++ B).take n := by
        intro B hAny
        exact mem_take_of_append _ _ n _ hA hAny _
          (List.mem_append_right _ (waitTerms_mem_of_none _ _ hwt p hmem))
      cases hrd : (removeDirs env.removeDirRes (List.map Pod.nodeName (q :: qs))).1 with
      | some e =>
        dsimp only
        constructor
        · intro hAny
          exact ⟨hkey _ hAny, htall p hmem⟩
        · intro hf
          exact absurd (htall p hmem) hf
      | none =>
        dsimp only
        cases hgd : env.getDsRes with
        | error e =>
          dsimp only
          constructor
          · intro hAny
            refine ⟨?_, htall p hmem⟩
            rw [List.append_assoc] at hAny ⊢
            exact hkey _ hAny
          · intro hf
            exact absurd (htall p hmem) hf
        | ok v =>
          dsimp only
          cases hur : env.updateRestoreRes with
          | error e =>
            dsimp only
            constructor
            · intro hAny
              refine ⟨?_, htall p hmem⟩
              rw [List.append_assoc] at hAny ⊢
              exact hkey _ hAny
            · intro hf
              exact absurd (htall p hmem) hf
          | ok vv =>
            dsimp only
            cases hw : waitErr (waitForAtLeastOneActivePodManagedByDaemonSet dsName env.wait).1 with
            | some e =>
              dsimp only
              constructor
              · intro hAny
                refine ⟨?_, htall p hmem⟩
                rw [List.append_assoc] at hAny ⊢
                exact hkey _ hAny
              · intro hf
                exact absurd (htall p hmem) hf
            | none =>
              dsimp only
              constructor
              · intro hAny
                refine ⟨?_, htall p hmem⟩
                rw [List.append_assoc] at hAny ⊢
                exact hkey _ hAny
              · intro hf
                exact absurd (htall p hmem) hf

/-- Witness for claim C4: with one recorded pod whose termination wait fails,
Clean errors and its trace contains no node-level removal. -/
theorem Clean_no_node_removal_until_all_terminations_witness :
    ((((Clean "ds" termFailCleanEnv).2.take 3).any CleanEvent.isRemoveDir = true →
      CleanEvent.waitTermination podOne.name ∈ (Clean "ds" termFailCleanEnv).2.take 3 ∧
        termFailCleanEnv.termRes podOne.name = none) ∧
    (termFailCleanEnv.termRes podOne.name ≠ none →
      (Clean "ds" termFailCleanEnv).1.isSome = true ∧
        (Clean "ds" termFailCleanEnv).2.any CleanEvent.isRemoveDir = false)) :=
  Clean_no_node_removal_until_all_terminations "ds" termFailCleanEnv [podOne] 3 podOne
    rfl (by decide)

/-- Claim C8: the ConfigMap payload has exactly two keys - the main-config key
and the parser-config key, which are distinct constants - the parser config is
stored under the parser-config key, and the parser-config filepath handed to
the main-config template equals exactly the config mount path joined with a
slash to the parser-config key name. -/
theorem configMap_two_keys_parser_path_contract
    (mainStr parserStr : String) (httpPort aggPort : Nat) (aggHost : String)
    (filters : List LogsCollectorFilter) :
    (createLogsCollectorConfigMapData mainStr parserStr).map Prod.fst =
      [fluentBitConfigFileName, parsersFileName] ∧
    fluentBitConfigFileName ≠ parsersFileName ∧
    (generateFluentBitConfigData httpPort aggHost aggPort filters).KurtosisParsersConfigFilepath =
      fluentBitConfigMountPath ++ "/" ++ parsersFileName ∧
    (createLogsCollectorConfigMapData mainStr parserStr).lookup parsersFileName =
      some parserStr := by
  refine ⟨rfl, by decide, rfl, rfl⟩

/-- Claim C10: with equal TCP and HTTP port identifiers, the privatePorts map
literal collapses to the single HTTP entry, written second, and the daemon set
container gets exactly one container port; with distinct identifiers it gets
two. -/
theorem duplicate_port_ids_collapse (tcpPortId httpPortId : String)
    (tcpSpec httpSpec : PortSpec) :
    (tcpPortId = httpPortId →
      privatePorts tcpPortId httpPortId tcpSpec httpSpec = [(httpPortId, httpSpec)] ∧
      (daemonSetContainerPorts tcpPortId httpPortId tcpSpec httpSpec).length = 1) ∧
    (tcpPortId ≠ httpPortId →
      (daemonSetContainerPorts tcpPortId httpPortId tcpSpec httpSpec).length = 2) := by
  constructor
  · intro h
    subst h
    have hpp : privatePorts tcpPortId tcpPortId tcpSpec httpSpec =
        [(tcpPortId, httpSpec)] := by
      simp [privatePorts, goMapInsert]
    refine ⟨hpp, ?_⟩
    rw [daemonSetContainerPorts, hpp]
    rfl
  · intro h
    have hpp : privatePorts tcpPortId httpPortId tcpSpec httpSpec =
        [(tcpPortId, tcpSpec), (httpPortId, httpSpec)] := by
      simp [privatePorts, goMapInsert, h]
    rw [daemonSetContainerPorts, hpp]
    rfl

/-- Witness for claim C10: with the same identifier for both ports the map
collapses to the HTTP entry, written second, and one container port results;
with distinct identifiers two container ports result. -/
theorem duplicate_port_ids_collapse_witness :
    privatePorts "p" "p" tcpIngestPortSpec httpControlPortSpec = [("p", httpControlPortSpec)] ∧
    (daemonSetContainerPorts "tcp" "http" tcpIngestPortSpec httpControlPortSpec).length = 2 :=
  ⟨((duplicate_port_ids_collapse "p" "p" tcpIngestPortSpec httpControlPortSpec).1 rfl).1,
   (duplicate_port_ids_collapse "tcp" "http" tcpIngestPortSpec httpControlPortSpec).2
     (by decide)⟩
